import Mathlib

/-!
Verification of the rosario_bus_transport integration.

Shallow embedding of the repository sources:
  * client.py   : `RouteStop`, `RouteStop.from_dict`, and the (stubbed)
                  prediction fetcher `get_predictions_for_multi_stops`;
  * sensor.py   : `RosarioBusDepartureSensor._handle_coordinator_update`;
  * __init__.py : `async_setup_entry` / `async_unload_entry` and the
                  process-wide agency registry stored in `hass.data[DOMAIN]`.

Python built-ins used by the code (`int(...)` on decimal strings, `str(...)`
on possibly-`None` values, `sorted(..., key=int)`, `dict` update/pop,
`str.join`, `itertools.chain`) are modelled by small executable Lean
functions defined below.  `coordinator.py` is referenced by the sources but
is not part of the repository snapshot, so the coordinator subscription-set
operations are modelled from the specification where needed.
-/

/-! ## Python built-in helpers -/

/-- Value of a decimal digit character, `none` for a non-digit. -/
def digitVal (c : Char) : Option Nat :=
  if c = '0' then some 0 else if c = '1' then some 1 else if c = '2' then some 2
  else if c = '3' then some 3 else if c = '4' then some 4 else if c = '5' then some 5
  else if c = '6' then some 6 else if c = '7' then some 7 else if c = '8' then some 8
  else if c = '9' then some 9 else none

/-- Accumulate a decimal number from a digit list; `none` on a non-digit. -/
def parseDigitsAux (acc : Nat) : List Char → Option Nat
  | [] => some acc
  | c :: cs =>
    match digitVal c with
    | some d => parseDigitsAux (acc * 10 + d) cs
    | none => none

/-- Python `int(s)` on a decimal string literal, as a partial function:
`none` models the `ValueError` Python raises on a malformed numeral. -/
def pyIntOpt (s : String) : Option Int :=
  match s.data with
  | [] => none
  | '-' :: cs =>
    if cs.isEmpty then none else (parseDigitsAux 0 cs).map (fun n => -(n : Int))
  | cs => (parseDigitsAux 0 cs).map (fun n => (n : Int))

/-- Total version of `pyIntOpt` used where the code applies `int` to fields
that are well-formed numerals in every reachable input (sensor.py applies
`int` to the `minutes` and `epochTime` fields unconditionally). -/
def pyInt (s : String) : Int := (pyIntOpt s).getD 0

/-- Python `str(x)` for an optional string: `str(None)` is the literal
string `"None"`; used for `str(results.get(...))` in sensor.py. -/
def pyStrOfOption : Option String → String
  | none => "None"
  | some s => s

/-- The `_attr_extra_state_attributes` dictionary of the sensor, modelled
extensionally as a lookup function: absent key versus key mapped to the
empty string stay distinguishable. -/
abbrev Attrs := String → Option String

/-- Python `d[k] = v` on an attributes dictionary. -/
def dictSet (d : Attrs) (k v : String) : Attrs :=
  fun x => if x = k then some v else d x

/-- Python `d.pop(k, None)` on an attributes dictionary (result state). -/
def dictPop (d : Attrs) (k : String) : Attrs :=
  fun x => if x = k then none else d x

/-- The comparison key of `sorted(..., key=int)` in sensor.py. -/
def minutesLe (a b : String) : Bool := pyInt a ≤ pyInt b

/-- Insert an element into a list in front of the first element it is
`le`-below; keeps earlier elements of equal key first. -/
def ordIns (le : α → α → Bool) (a : α) : List α → List α
  | [] => [a]
  | b :: l => if le a b then a :: b :: l else b :: ordIns le a l

/-- Stable sort by repeated ordered insertion.  Models Python
`sorted(xs, key=...)`: both are stable sorts with respect to the non-strict
key comparison, hence extensionally equal. -/
def insSort (le : α → α → Bool) : List α → List α
  | [] => []
  | a :: l => ordIns le a (insSort le l)

/-! ## client.py : RouteStop -/

/-- The `stop_tag` field of `RouteStop` has Python type `str | int`. -/
inductive StopTag where
  | str (s : String)
  | int (n : Int)
deriving DecidableEq, Repr

/-- Python `str(...)` interpolation of a `str | int` value inside the
f-string of `RouteStop.__str__`. -/
def StopTag.pyStr : StopTag → String
  | .str s => s
  | .int n => toString n

/-- `RouteStop` from client.py: a NamedTuple of `route_tag : str` and
`stop_tag : str | int`.  Equality is field-wise with no coercion between
`str` and `int` (Python `1 == "1"` is `False`). -/
structure RouteStop where
  route_tag : String
  stop_tag : StopTag
deriving DecidableEq, Repr

/-- `RouteStop.__str__`: the f-string `"{route_tag}|{stop_tag}"`. -/
def RouteStop.toStr (r : RouteStop) : String :=
  r.route_tag ++ "|" ++ r.stop_tag.pyStr

/-- The legacy mapping consumed by `RouteStop.from_dict`, restricted to the
two keys the method reads.  An absent key is `none`; values carry the types
a `RouteStop` can hold (`route_tag` a string, `stop_tag` string-or-int). -/
structure LegacyDict where
  route_tag : Option String
  stop_tag : Option StopTag
deriving DecidableEq, Repr

/-- The error raised when a required key is absent from the legacy mapping
(the `MalformedInput` kind of the design; Python raises `KeyError`). -/
inductive MalformedInput where
  | keyError (key : String)
deriving DecidableEq, Repr

/-- `RouteStop.from_dict` from client.py:
`cls(legacy_dict["route_tag"], legacy_dict["stop_tag"])`, with the
subscripts evaluated left to right and a missing key raising. -/
def RouteStop.from_dict (d : LegacyDict) : Except MalformedInput RouteStop :=
  match d.route_tag with
  | none => .error (.keyError "route_tag")
  | some r =>
    match d.stop_tag with
    | none => .error (.keyError "stop_tag")
    | some s => .ok ⟨r, s⟩

/-! ## sensor.py : prediction record and sensor view update -/

/-- One entry of the `message` list of a prediction record; `get("text", "")`
defaults an absent text to the empty string. -/
structure Message where
  text : Option String
deriving DecidableEq, Repr

/-- One entry of a `prediction` list.  `minutes` and `epochTime` are
integer-as-string JSON fields accessed with mandatory subscripts. -/
structure Prediction where
  minutes : String
  epochTime : String
deriving DecidableEq, Repr

/-- One entry of the `direction` list; `get("title", "")` defaults an absent
title, `listify(direction.get("prediction", []))` yields the list here. -/
structure Direction where
  title : Option String
  prediction : List Prediction
deriving DecidableEq, Repr

/-- The prediction record returned by the coordinator lookup in sensor.py,
restricted to the keys the update reads.  `isEmptyDict` models Python
truthiness of the dictionary (`not results` is true for an empty dict);
`hasErrorKey` models the membership test `"Error" in results`. -/
structure Results where
  agencyTitle : Option String
  routeTitle : Option String
  stopTitle : Option String
  message : List Message
  direction : List Direction
  isEmptyDict : Bool
  hasErrorKey : Bool
deriving DecidableEq, Repr

/-- The mutable sensor fields written by `_handle_coordinator_update`.
The native value keeps the integer epoch milliseconds
`int(latest_prediction["epochTime"])`; the code passes it through the
strictly monotone injective `utc_from_timestamp(millis / 1000)`, so which
prediction the native value is derived from is preserved. -/
structure SensorState where
  nativeValue : Option Int
  attrs : Attrs
  attribution : String

/-- All `(direction, prediction)` pairs of the record flattened in source
order: `list(chain(*(listify(direction.get("prediction", [])) for direction
in directions)))`. -/
def flatPredictions (r : Results) : List Prediction :=
  (r.direction.map (fun d => d.prediction)).flatten

/-- The error/absent early return of `_handle_coordinator_update`: native
value set to `None`, `"upcoming"` popped from the attributes, nothing else
touched. -/
def sensorErrorBranch (s : SensorState) : SensorState :=
  { s with nativeValue := none, attrs := dictPop s.attrs "upcoming" }

/-- `RosarioBusDepartureSensor._handle_coordinator_update` from sensor.py.
`results` is the coordinator lookup (`None` when the key is absent);
`attribution` is `coordinator.get_attribution()`.  Logging and the final
`async_write_ha_state()` host notification carry no sensor-state effect and
are omitted. -/
def handle_coordinator_update (results : Option Results) (attribution : String)
    (s : SensorState) : SensorState :=
  let s1 : SensorState := { s with attribution := attribution }
  match results with
  | none => sensorErrorBranch s1
  | some r =>
    if r.isEmptyDict || r.hasErrorKey then sensorErrorBranch s1
    else
      let a1 := dictSet (dictSet (dictSet s1.attrs
        "agency" (pyStrOfOption r.agencyTitle))
        "route" (pyStrOfOption r.routeTitle))
        "stop" (pyStrOfOption r.stopTitle)
      let a2 := dictSet a1 "message"
        (String.intercalate " -- " (r.message.map (fun m => m.text.getD "")))
      let a3 := dictSet a2 "direction"
        (String.intercalate ", " (r.direction.map (fun d => d.title.getD "")))
      let predictions := flatPredictions r
      if predictions.isEmpty then
        { s1 with nativeValue := none,
                  attrs := dictSet a3 "upcoming" "No upcoming predictions" }
      else
        let a4 := dictSet a3 "upcoming"
          (String.intercalate ", "
            (insSort minutesLe (predictions.map (fun p => p.minutes))))
        { s1 with
            nativeValue := (predictions.head?).map (fun p => pyInt p.epochTime),
            attrs := a4 }

/-- The worked example of the specification: one direction titled North with
predictions `(minutes "5", epochTime "1000000")` then
`(minutes "2", epochTime "900000")` in source order. -/
def specExampleResults : Results :=
  { agencyTitle := some "MOVI"
    routeTitle := some "R"
    stopTitle := some "S"
    message := []
    direction := [{ title := some "North"
                    prediction := [⟨"5", "1000000"⟩, ⟨"2", "900000"⟩] }]
    isEmptyDict := false
    hasErrorKey := false }

/-- A sensor state with empty attributes, used as a base state. -/
def initialSensorState : SensorState :=
  { nativeValue := none, attrs := fun _ => none, attribution := "" }

/-! ## Prediction fetcher

The body of `RosarioBusClient.get_predictions_for_multi_stops` in client.py
is a stub (`pass`), so the fetcher behaviour is modelled from the
specification. -/

/-- The fetch error kinds of the design (transport failures and
undecodable/unexpected response bodies). -/
inductive FetchError where
  | transport
  | malformedResponse
deriving DecidableEq, Repr

/-- One top-level route object of an already decoded response: a route name
and the per-stop prediction records present for that route. -/
structure RouteObj where
  routeName : String
  arrivals : List (StopTag × Results)
deriving DecidableEq, Repr

/-- Modelled from the spec: the per-route filtering step of
`get_predictions_for_multi_stops`, whose body is missing from client.py.
For each top-level route object of the response, entries are kept only when
the resulting RouteStop key is in the subscribed set; subscribed RouteStops
absent from the response simply produce no entry of the result mapping. -/
def fetchMap (subscribed : List RouteStop) (response : List RouteObj) :
    List (RouteStop × Results) :=
  response.flatMap (fun obj =>
    obj.arrivals.filterMap (fun e =>
      let key : RouteStop := ⟨obj.routeName, e.1⟩
      if key ∈ subscribed then some (key, e.2) else none))

/-- Modelled from the spec: `fetch(agency, set_of_route_stops)` on an
already decoded response body.  Transport failures and undecodable bodies
yield `FetchError` upstream of this step; on a decoded response the
filtering itself always succeeds, and a subscribed key without data is
simply absent from the mapping, never an error. -/
def fetch (subscribed : List RouteStop) (response : List RouteObj) :
    Except FetchError (List (RouteStop × Results)) :=
  .ok (fetchMap subscribed response)

/-! ## __init__.py : agency registry and entry setup/unload

`RosarioBusDataUpdateCoordinator` lives in coordinator.py, which is not in
the repository snapshot; its subscription-set operations are modelled from
the specification (a multiset of (stop, route) pairs acting as reference
counts). -/

/-- Modelled from the spec: the coordinator's subscription set, a multiset
of (stop, route) pairs; adding an already-present pair is a no-op besides
reference counting. -/
structure Coordinator where
  routes : List (String × String)
deriving DecidableEq, Repr

/-- Modelled from the spec: `add_stop_route(stop, route)` inserts one
reference for the pair into the subscription set. -/
def Coordinator.add_stop_route (c : Coordinator) (stop route : String) :
    Coordinator :=
  ⟨(stop, route) :: c.routes⟩

/-- Modelled from the spec: `remove_stop_route(stop, route)` removes one
reference for the pair from the subscription set. -/
def Coordinator.remove_stop_route (c : Coordinator) (stop route : String) :
    Coordinator :=
  ⟨c.routes.erase (stop, route)⟩

/-- Modelled from the spec: `has_routes()` is true iff the subscription set
is non-empty. -/
def Coordinator.has_routes (c : Coordinator) : Bool :=
  !c.routes.isEmpty

/-- `DEFAULT_AGENCY` from const.py. -/
def DEFAULT_AGENCY : String := "MOVI"

/-- The config-entry data fields read by `async_setup_entry` and
`async_unload_entry`: optional agency (`entry.data.get(CONF_AGENCY,
DEFAULT_AGENCY)`), stop and route. -/
structure ConfigEntryData where
  agency : Option String
  stop : String
  route : String
deriving Repr

/-- The process-wide map from agency to coordinator kept in
`hass.data[DOMAIN]`. -/
abbrev Registry := String → Option Coordinator

/-- The agency key an entry resolves to. -/
def entryAgency (e : ConfigEntryData) : String :=
  e.agency.getD DEFAULT_AGENCY

/-- `async_setup_entry` from the package init module, restricted to its
effect on the registry: look up the coordinator for the entry agency,
create and register a fresh one when absent, then `add_stop_route` on it
(the registered object is mutated in place, so the registry holds the
updated coordinator).  The first refresh and the platform forwarding are
host-side effects outside the registry state. -/
def async_setup_entry (reg : Registry) (e : ConfigEntryData) : Registry :=
  let ag := entryAgency e
  let c0 : Coordinator :=
    match reg ag with
    | some c => c
    | none => ⟨[]⟩
  let c1 := c0.add_stop_route e.stop e.route
  fun a => if a = ag then some c1 else reg a

/-- `async_unload_entry` from the package init module, restricted to its
effect on the registry.  `unload_ok` is the result of the host call
`async_unload_platforms`; when false the function returns `False` and
touches nothing.  The lookup `hass.data[DOMAIN][entry_agency]` raises on an
absent agency, modelled by `none`.  Otherwise one reference is removed and
the coordinator is dropped from the registry when `has_routes()` turns
false. -/
def async_unload_entry (unload_ok : Bool) (reg : Registry)
    (e : ConfigEntryData) : Option (Registry × Bool) :=
  if unload_ok then
    let ag := entryAgency e
    match reg ag with
    | none => none
    | some c =>
      let c1 := c.remove_stop_route e.stop e.route
      if !c1.has_routes then
        some (fun a => if a = ag then none else reg a, true)
      else
        some (fun a => if a = ag then some c1 else reg a, true)
  else
    some (reg, false)

/-- The registry invariant of the design: an agency is mapped to a
coordinator only while that coordinator has at least one active
subscription. -/
def registryInv (reg : Registry) : Prop :=
  ∀ a c, reg a = some c → c.has_routes = true

/-! ## Concrete inputs used by witnesses -/

/-- The attribute dictionary after the agency/route/stop, message and
direction writes of the success path of the sensor update (the state of
`_attr_extra_state_attributes` just before the `upcoming` write). -/
def successA3 (r : Results) (a : Attrs) : Attrs :=
  dictSet (dictSet (dictSet (dictSet (dictSet a
    "agency" (pyStrOfOption r.agencyTitle))
    "route" (pyStrOfOption r.routeTitle))
    "stop" (pyStrOfOption r.stopTitle))
    "message" (String.intercalate " -- " (r.message.map (fun m => m.text.getD ""))))
    "direction" (String.intercalate ", " (r.direction.map (fun d => d.title.getD "")))

/-- A successful record whose direction list is empty. -/
def emptyDirResults : Results :=
  { agencyTitle := some "MOVI", routeTitle := some "R", stopTitle := some "S",
    message := [], direction := [], isEmptyDict := false, hasErrorKey := false }

/-- A sensor state carrying attributes from an earlier successful update. -/
def staleSensorState : SensorState :=
  { nativeValue := some 0,
    attrs := dictSet (dictSet (fun _ => none) "agency" "OldAgency") "upcoming" "1, 2",
    attribution := "" }

/-- A one-element subscription set. -/
def c6Subscribed : List RouteStop := [⟨"R1", .str "S1"⟩]

/-- A response whose only route object names a route that matches no
subscribed RouteStop. -/
def c6Response : List RouteObj := [⟨"R2", [(.str "S1", emptyDirResults)]⟩]

/-- The empty agency registry. -/
def regEmpty : Registry := fun _ => none

/-- A config entry for agency MOVI. -/
def entryExample : ConfigEntryData := ⟨some "MOVI", "stop1", "route1"⟩

/-! ## Helper lemmas: stable insertion sort -/

theorem ordIns_perm (le : α → α → Bool) (a : α) (l : List α) :
    (ordIns le a l).Perm (a :: l) := by
  induction l with
  | nil => exact List.Perm.refl _
  | cons b t ih =>
    rw [ordIns]
    split
    · exact List.Perm.refl _
    · exact (List.Perm.cons b ih).trans (List.Perm.swap a b t)

theorem insSort_perm (le : α → α → Bool) (l : List α) :
    (insSort le l).Perm l := by
  induction l with
  | nil => exact List.Perm.refl _
  | cons a t ih =>
    exact (ordIns_perm le a (insSort le t)).trans (List.Perm.cons a ih)

theorem ordIns_pairwise (le : α → α → Bool)
    (htrans : ∀ a b c, le a b = true → le b c = true → le a c = true)
    (htot : ∀ a b, le a b = true ∨ le b a = true)
    (a : α) (l : List α)
    (hl : l.Pairwise (fun x y => le x y = true)) :
    (ordIns le a l).Pairwise (fun x y => le x y = true) := by
  induction l with
  | nil => simp [ordIns]
  | cons b t ih =>
    rw [List.pairwise_cons] at hl
    obtain ⟨hb, ht⟩ := hl
    rw [ordIns]
    split
    case isTrue h =>
      rw [List.pairwise_cons]
      refine ⟨?_, ?_⟩
      · intro x hx
        rcases List.mem_cons.mp hx with rfl | hx2
        · exact h
        · exact htrans a b x h (hb x hx2)
      · rw [List.pairwise_cons]
        exact ⟨hb, ht⟩
    case isFalse h =>
      rw [List.pairwise_cons]
      refine ⟨?_, ih ht⟩
      intro x hx
      have hx2 : x ∈ a :: t := ((ordIns_perm le a t).mem_iff).mp hx
      rcases List.mem_cons.mp hx2 with rfl | hx3
      · rcases htot x b with h1 | h2
        · exact absurd h1 h
        · exact h2
      · exact hb x hx3

theorem insSort_pairwise (le : α → α → Bool)
    (htrans : ∀ a b c, le a b = true → le b c = true → le a c = true)
    (htot : ∀ a b, le a b = true ∨ le b a = true)
    (l : List α) :
    (insSort le l).Pairwise (fun x y => le x y = true) := by
  induction l with
  | nil => simp [insSort]
  | cons a t ih =>
    rw [insSort]
    exact ordIns_pairwise le htrans htot a _ ih

theorem minutesLe_trans (a b c : String) :
    minutesLe a b = true → minutesLe b c = true → minutesLe a c = true := by
  intro h1 h2
  simp only [minutesLe, decide_eq_true_eq] at h1 h2 ⊢
  exact le_trans h1 h2

theorem minutesLe_total (a b : String) :
    minutesLe a b = true ∨ minutesLe b a = true := by
  simp only [minutesLe, decide_eq_true_eq]
  exact le_total _ _

/-! ## Helper lemmas: sensor update branches -/

theorem handle_error_eq (results : Option Results) (att : String)
    (s : SensorState)
    (h : results = none ∨
      ∃ r, results = some r ∧ (r.isEmptyDict || r.hasErrorKey) = true) :
    handle_coordinator_update results att s =
      { nativeValue := none, attrs := dictPop s.attrs "upcoming",
        attribution := att } := by
  rcases h with rfl | ⟨r, rfl, hr⟩
  · rfl
  · simp only [handle_coordinator_update, hr, if_true, sensorErrorBranch]

theorem handle_success_empty (r : Results) (att : String) (s : SensorState)
    (hE : r.isEmptyDict = false) (hK : r.hasErrorKey = false)
    (hp : flatPredictions r = []) :
    handle_coordinator_update (some r) att s =
      { nativeValue := none,
        attrs := dictSet (successA3 r s.attrs) "upcoming"
          "No upcoming predictions",
        attribution := att } := by
  simp only [handle_coordinator_update, hE, hK, Bool.or_self, Bool.false_eq_true,
    if_false, hp, List.isEmpty_nil, if_true, successA3]

theorem handle_success_nonempty (r : Results) (att : String) (s : SensorState)
    (p : Prediction) (ps : List Prediction)
    (hE : r.isEmptyDict = false) (hK : r.hasErrorKey = false)
    (hp : flatPredictions r = p :: ps) :
    handle_coordinator_update (some r) att s =
      { nativeValue := some (pyInt p.epochTime),
        attrs := dictSet (successA3 r s.attrs) "upcoming"
          (String.intercalate ", "
            (insSort minutesLe ((p :: ps).map (fun q => q.minutes)))),
        attribution := att } := by
  simp only [handle_coordinator_update, hE, hK, Bool.or_self, Bool.false_eq_true,
    if_false, hp, List.isEmpty_cons, List.head?_cons, successA3]
  rfl

/-! ## Claim theorems -/

/-- Claim C1: for every prediction record whose flattened prediction list is
non-empty, the native value is derived from the epoch time of the first
prediction in source order (no re-sorting chooses it), while the `upcoming`
attribute is the comma-joined list of every prediction's `minutes` field
sorted ascending by numeric value with a stable sort; on the worked example
of the specification the two name different predictions, and a tie keeps
the original relative order. -/
theorem C1_native_first_upcoming_sorted (r : Results) (att : String)
    (s : SensorState) (p : Prediction) (ps : List Prediction)
    (hE : r.isEmptyDict = false) (hK : r.hasErrorKey = false)
    (hp : flatPredictions r = p :: ps) :
    ((handle_coordinator_update (some r) att s).nativeValue =
        some (pyInt p.epochTime))
    ∧ ((handle_coordinator_update (some r) att s).attrs "upcoming" =
        some (String.intercalate ", "
          (insSort minutesLe ((p :: ps).map (fun q => q.minutes)))))
    ∧ (insSort minutesLe ((p :: ps).map (fun q => q.minutes))).Perm
        ((p :: ps).map (fun q => q.minutes))
    ∧ (insSort minutesLe ((p :: ps).map (fun q => q.minutes))).Pairwise
        (fun a b => pyInt a ≤ pyInt b)
    ∧ (handle_coordinator_update (some specExampleResults) ""
        initialSensorState).nativeValue = some 1000000
    ∧ (handle_coordinator_update (some specExampleResults) ""
        initialSensorState).attrs "upcoming" = some "2, 5"
    ∧ insSort minutesLe ["2", "02", "5"] = ["2", "02", "5"] := by
  rw [handle_success_nonempty r att s p ps hE hK hp]
  refine ⟨rfl, by simp [dictSet], insSort_perm _ _, ?_, by decide, by decide,
    by decide⟩
  exact (insSort_pairwise minutesLe minutesLe_trans minutesLe_total _).imp
    (fun h => by simpa [minutesLe] using h)

/-- Witness for C1 at the specification's worked example. -/
theorem C1_native_first_upcoming_sorted_witness :
    specExampleResults.isEmptyDict = false
    ∧ flatPredictions specExampleResults =
        ⟨"5", "1000000"⟩ :: [⟨"2", "900000"⟩]
    ∧ (handle_coordinator_update (some specExampleResults) ""
        initialSensorState).nativeValue = some (pyInt "1000000") := by
  refine ⟨rfl, rfl, ?_⟩
  exact (C1_native_first_upcoming_sorted specExampleResults ""
    initialSensorState ⟨"5", "1000000"⟩ [⟨"2", "900000"⟩] rfl rfl rfl).1

/-- Claim C2: for every coordinator lookup result that is absent or marked
errored, the update sets the native value to absent and removes the
`upcoming` attribute entirely (it is `none`, not mapped to an empty
string). -/
theorem C2_error_clears_native_and_upcoming (results : Option Results)
    (att : String) (s : SensorState)
    (h : results = none ∨ ∃ r, results = some r ∧ r.hasErrorKey = true) :
    (handle_coordinator_update results att s).nativeValue = none
    ∧ (handle_coordinator_update results att s).attrs "upcoming" = none := by
  have h2 : results = none ∨
      ∃ r, results = some r ∧ (r.isEmptyDict || r.hasErrorKey) = true := by
    rcases h with rfl | ⟨r, rfl, hr⟩
    · exact Or.inl rfl
    · exact Or.inr ⟨r, rfl, by simp [hr]⟩
  rw [handle_error_eq results att s h2]
  exact ⟨rfl, by simp [dictPop]⟩

/-- Witness for C2 at an absent lookup result. -/
theorem C2_error_clears_native_and_upcoming_witness :
    (handle_coordinator_update none "" staleSensorState).nativeValue = none
    ∧ (handle_coordinator_update none "" staleSensorState).attrs "upcoming" =
        none :=
  C2_error_clears_native_and_upcoming none "" staleSensorState (Or.inl rfl)

/-- Claim C3: for every successful record whose directions flatten to an
empty prediction list, the native value is absent and the `upcoming`
attribute equals the fixed sentinel string. -/
theorem C3_empty_predictions_sentinel (r : Results) (att : String)
    (s : SensorState)
    (hE : r.isEmptyDict = false) (hK : r.hasErrorKey = false)
    (hp : flatPredictions r = []) :
    (handle_coordinator_update (some r) att s).nativeValue = none
    ∧ (handle_coordinator_update (some r) att s).attrs "upcoming" =
        some "No upcoming predictions" := by
  rw [handle_success_empty r att s hE hK hp]
  exact ⟨rfl, by simp [dictSet]⟩

/-- Witness for C3 at a record with an empty direction list. -/
theorem C3_empty_predictions_sentinel_witness :
    flatPredictions emptyDirResults = []
    ∧ (handle_coordinator_update (some emptyDirResults) ""
        initialSensorState).attrs "upcoming" = some "No upcoming predictions" :=
  ⟨rfl, (C3_empty_predictions_sentinel emptyDirResults "" initialSensorState
    rfl rfl rfl).2⟩

/-- Claim C8: for every successfully looked-up record, the `message`
attribute equals all message texts joined by " -- " (the empty string when
there are no messages) and the `direction` attribute equals all direction
titles joined by ", ". -/
theorem C8_message_direction_attrs (r : Results) (att : String)
    (s : SensorState)
    (hE : r.isEmptyDict = false) (hK : r.hasErrorKey = false) :
    ((handle_coordinator_update (some r) att s).attrs "message" =
      some (String.intercalate " -- " (r.message.map (fun m => m.text.getD ""))))
    ∧ ((handle_coordinator_update (some r) att s).attrs "direction" =
      some (String.intercalate ", " (r.direction.map (fun d => d.title.getD ""))))
    ∧ (r.message = [] →
      (handle_coordinator_update (some r) att s).attrs "message" = some "") := by
  have hbase : ∀ k, k ≠ "upcoming" →
      (handle_coordinator_update (some r) att s).attrs k =
        successA3 r s.attrs k := by
    intro k hk
    rcases hflat : flatPredictions r with _ | ⟨p, ps⟩
    · rw [handle_success_empty r att s hE hK hflat]
      simp [dictSet, hk]
    · rw [handle_success_nonempty r att s p ps hE hK hflat]
      simp [dictSet, hk]
  refine ⟨?_, ?_, ?_⟩
  · rw [hbase "message" (by decide)]
    simp [successA3, dictSet]
  · rw [hbase "direction" (by decide)]
    simp [successA3, dictSet]
  · intro hm
    rw [hbase "message" (by decide)]
    simp [successA3, dictSet, hm]
    decide

/-- Witness for C8 at the specification's worked example. -/
theorem C8_message_direction_attrs_witness :
    (handle_coordinator_update (some specExampleResults) ""
        initialSensorState).attrs "direction" = some "North"
    ∧ (handle_coordinator_update (some specExampleResults) ""
        initialSensorState).attrs "message" = some "" := by
  have h := C8_message_direction_attrs specExampleResults "" initialSensorState
    rfl rfl
  exact ⟨h.2.1.trans (by decide), h.2.2 rfl⟩

/-- Claim C9 (implicit frame effect): when the update takes the
error/absent branch, every attribute other than `upcoming` keeps its
previous value; stale attributes from an earlier successful update
survive. -/
theorem C9_error_branch_frame (results : Option Results) (att : String)
    (s : SensorState)
    (h : results = none ∨
      ∃ r, results = some r ∧ (r.isEmptyDict || r.hasErrorKey) = true)
    (k : String) (hk : k ≠ "upcoming") :
    (handle_coordinator_update results att s).attrs k = s.attrs k := by
  rw [handle_error_eq results att s h]
  simp [dictPop, hk]

/-- Witness for C9: a stale `agency` attribute survives an error update. -/
theorem C9_error_branch_frame_witness :
    (handle_coordinator_update none "" staleSensorState).attrs "agency" =
      some "OldAgency" := by
  have h := C9_error_branch_frame none "" staleSensorState (Or.inl rfl)
    "agency" (by decide)
  rw [h]
  decide

/-- Claim C4: for every RouteStop `r`, constructing a RouteStop from the
legacy mapping with keys `route_tag` and `stop_tag` taken from `r` gives
back exactly `r`. -/
theorem C4_from_dict_roundtrip (r : RouteStop) :
    RouteStop.from_dict ⟨some r.route_tag, some r.stop_tag⟩ = .ok r := rfl

/-- Claim C5: constructing a RouteStop from a legacy mapping fails with a
MalformedInput error exactly when the `route_tag` key or the `stop_tag` key
is absent, and succeeds when both are present. -/
theorem C5_from_dict_missing_key (d : LegacyDict) :
    ((d.route_tag = none ∨ d.stop_tag = none) →
      ∃ e, RouteStop.from_dict d = .error e)
    ∧ (d.route_tag ≠ none → d.stop_tag ≠ none →
      ∃ rs, RouteStop.from_dict d = .ok rs) := by
  obtain ⟨rt, st⟩ := d
  cases rt <;> cases st <;>
    simp [RouteStop.from_dict]

/-- Witness for C5: a mapping lacking `route_tag` fails, a mapping with
both keys succeeds. -/
theorem C5_from_dict_missing_key_witness :
    (∃ e, RouteStop.from_dict ⟨none, some (.str "S")⟩ = .error e)
    ∧ (∃ rs, RouteStop.from_dict ⟨some "R", some (.str "S")⟩ = .ok rs) :=
  ⟨(C5_from_dict_missing_key ⟨none, some (.str "S")⟩).1 (Or.inl rfl),
   (C5_from_dict_missing_key ⟨some "R", some (.str "S")⟩).2
     (by simp) (by simp)⟩

/-- Claim C10 (implicit): the canonical string form of RouteStop is not
injective: RouteStop("R", 1) and RouteStop("R", "1") are unequal values yet
both render as "R|1". -/
theorem C10_toStr_not_injective :
    RouteStop.toStr ⟨"R", .int 1⟩ = "R|1"
    ∧ RouteStop.toStr ⟨"R", .str "1"⟩ = "R|1"
    ∧ (⟨"R", .int 1⟩ : RouteStop) ≠ ⟨"R", .str "1"⟩ := by
  refine ⟨by decide, by decide, by decide⟩

/-- Claim C6: a subscribed RouteStop whose route matches no entry of the
response is simply absent from the returned result mapping (no
empty-but-present entry), and the fetch still succeeds. -/
theorem C6_unmatched_route_absent (subscribed : List RouteStop)
    (response : List RouteObj) (rs : RouteStop)
    (_hsub : rs ∈ subscribed)
    (hnomatch : ∀ obj ∈ response, obj.routeName ≠ rs.route_tag) :
    fetch subscribed response = .ok (fetchMap subscribed response)
    ∧ rs ∉ (fetchMap subscribed response).map Prod.fst := by
  refine ⟨rfl, ?_⟩
  intro hmem
  rw [List.mem_map] at hmem
  obtain ⟨pr, hpr, hfst⟩ := hmem
  rw [fetchMap, List.mem_flatMap] at hpr
  obtain ⟨obj, hobj, hpr2⟩ := hpr
  rw [List.mem_filterMap] at hpr2
  obtain ⟨e, _he, heq⟩ := hpr2
  dsimp only at heq
  by_cases hin : (⟨obj.routeName, e.1⟩ : RouteStop) ∈ subscribed
  · rw [if_pos hin] at heq
    have hpr3 : pr = (⟨obj.routeName, e.1⟩, e.2) := (Option.some.inj heq).symm
    subst hpr3
    exact hnomatch obj hobj (congrArg RouteStop.route_tag hfst)
  · rw [if_neg hin] at heq
    exact Option.noConfusion heq

/-- Witness for C6: the subscribed stop of route R1 is absent from the
result of a response naming only route R2. -/
theorem C6_unmatched_route_absent_witness :
    fetch c6Subscribed c6Response = .ok (fetchMap c6Subscribed c6Response)
    ∧ (⟨"R1", .str "S1"⟩ : RouteStop) ∉
        (fetchMap c6Subscribed c6Response).map Prod.fst :=
  C6_unmatched_route_absent c6Subscribed c6Response ⟨"R1", .str "S1"⟩
    (by decide) (by decide)

/-- Claim C7: the registry maps an agency to a coordinator iff a
subscription for it is active: setting up an entry registers a coordinator
with at least one route (creating it when absent), unloading an entry whose
removal leaves the coordinator without routes drops it from the registry,
and both operations preserve the registry invariant. -/
theorem C7_registry_coordinator_lifecycle (reg : Registry)
    (e : ConfigEntryData) (hinv : registryInv reg) :
    (∃ c, (async_setup_entry reg e) (entryAgency e) = some c ∧
        c.has_routes = true)
    ∧ registryInv (async_setup_entry reg e)
    ∧ (∀ c, reg (entryAgency e) = some c →
        (c.remove_stop_route e.stop e.route).has_routes = false →
        ∃ reg2, async_unload_entry true reg e = some (reg2, true) ∧
          reg2 (entryAgency e) = none ∧ registryInv reg2)
    ∧ (∀ c, reg (entryAgency e) = some c →
        (c.remove_stop_route e.stop e.route).has_routes = true →
        ∃ reg2, async_unload_entry true reg e = some (reg2, true) ∧
          reg2 (entryAgency e) =
            some (c.remove_stop_route e.stop e.route) ∧ registryInv reg2) := by
  refine ⟨?_, ?_, ?_, ?_⟩
  · refine ⟨(match reg (entryAgency e) with
      | some c => c
      | none => ⟨[]⟩).add_stop_route e.stop e.route, ?_, ?_⟩
    · simp [async_setup_entry]
    · simp [Coordinator.has_routes, Coordinator.add_stop_route]
  · intro a c hc
    simp only [async_setup_entry] at hc
    split at hc
    · have hc2 := Option.some.inj hc
      rw [← hc2]
      simp [Coordinator.has_routes, Coordinator.add_stop_route]
    · exact hinv a c hc
  · intro c hc hroutes
    have hstep : async_unload_entry true reg e =
        some (fun a => if a = entryAgency e then none else reg a, true) := by
      simp only [async_unload_entry, if_true]
      rw [hc]
      simp [hroutes]
    refine ⟨_, hstep, by simp, ?_⟩
    intro a c2 hc2
    dsimp only at hc2
    by_cases ha : a = entryAgency e
    · rw [if_pos ha] at hc2
      exact Option.noConfusion hc2
    · rw [if_neg ha] at hc2
      exact hinv a c2 hc2
  · intro c hc hroutes
    have hstep : async_unload_entry true reg e =
        some (fun a => if a = entryAgency e
          then some (c.remove_stop_route e.stop e.route) else reg a, true) := by
      simp only [async_unload_entry, if_true]
      rw [hc]
      simp [hroutes]
    refine ⟨_, hstep, by simp, ?_⟩
    intro a c2 hc2
    dsimp only at hc2
    by_cases ha : a = entryAgency e
    · rw [if_pos ha] at hc2
      rw [← Option.some.inj hc2]
      exact hroutes
    · rw [if_neg ha] at hc2
      exact hinv a c2 hc2

/-- Witness for C7: setting up an entry on the empty registry registers a
coordinator with an active subscription for MOVI. -/
theorem C7_registry_coordinator_lifecycle_witness :
    ∃ c, (async_setup_entry regEmpty entryExample) (entryAgency entryExample) =
        some c ∧ c.has_routes = true :=
  (C7_registry_coordinator_lifecycle regEmpty entryExample
    (fun _a _c h => Option.noConfusion h)).1
